import Mathlib

set_option maxRecDepth 16000
set_option maxHeartbeats 1000000

/-!
Verification development for the Twitch chat retrieval core of this
repository (`chat_replay_downloader/sites/twitch.py` and
`chat_replay_downloader/errors.py`).

Part 1 below embeds the live read loop's buffering logic together with an
executable backtracking matcher for the concrete message pattern
`_MESSAGE_REGEX` (Python `re` semantics with `re.MULTILINE`: `^` matches at
the start of the text and after every newline, `.` matches every character
except the newline, greedy and lazy quantifiers backtrack, alternation is
leftmost-preferring, and `finditer` scans left to right yielding
non-overlapping matches).  Part 2 embeds the tag remapping engine, the IRC
line parser `_parse_irc_item`, the replay-path comment parser `_parse_item`
and pagination loop, the clip entry point, and the top-level URL dispatch.
Functions living in the repository modules `common.py` and `utils.py` are
not part of the sources; they are modelled from the specification and are
marked as such in their doc comments.
-/

/-! ### Character classes used by the patterns (Python `re` semantics) -/

/-- Python whitespace class over the ASCII range used by the wire protocol:
space, tab, newline, carriage return, vertical tab and form feed. -/
def isPySpace (c : Char) : Bool :=
  c = ' ' || c = '\t' || c = '\n' || c = '\r' || c = '\x0b' || c = '\x0c'

/-- Python word character class over ASCII, used by word boundaries. -/
def isPyWord (c : Char) : Bool :=
  ('a' ≤ c && c ≤ 'z') || ('A' ≤ c && c ≤ 'Z') || ('0' ≤ c && c ≤ '9') || c = '_'

/-- Decimal digit. -/
def isPyDigit (c : Char) : Bool :=
  '0' ≤ c && c ≤ '9'

/-! ### Regular expression abstract syntax

One constructor per construct used by `_MESSAGE_REGEX`, `_VALID_VOD_URL`,
`_VALID_CLIPS_URL` and `_VALID_STREAM_URL`. -/

/-- Abstract syntax of the concrete regular expressions appearing in the
source.  `star`/`opt` carry a laziness flag (`true` means lazy, i.e. `*?` /
`??`); `grp` is a capturing group; `look` is a zero-width lookahead; `bol`
is `^` under `re.MULTILINE`; `bound` is the word boundary `\b`. -/
inductive RE where
  | eps : RE
  | lit : Char → RE
  | cls : (Char → Bool) → RE
  | seq : RE → RE → RE
  | alt : RE → RE → RE
  | star : Bool → RE → RE
  | opt : Bool → RE → RE
  | grp : Nat → RE → RE
  | look : RE → RE
  | bol : RE
  | bound : RE

/-- Sequencing of a list of regexes. -/
def RE.seqList (rs : List RE) : RE :=
  rs.foldr RE.seq RE.eps

/-- Literal string (a sequence of literal characters). -/
def RE.litStr (s : String) : RE :=
  RE.seqList (s.data.map RE.lit)

/-- Greedy `r+` as `r` followed by greedy `r*`. -/
def RE.plusG (r : RE) : RE :=
  RE.seq r (RE.star false r)

/-- Lazy `r+?` as `r` followed by lazy `r*?`. -/
def RE.plusL (r : RE) : RE :=
  RE.seq r (RE.star true r)

/-- Python `.` (any character except a newline). -/
def RE.dot : RE :=
  RE.cls (fun c => c ≠ '\n')

/-! ### Backtracking matcher

The matcher is a continuation-passing backtracker over a text zipper.  It
follows Python's `re` backtracking order exactly for the constructs above:
greedy quantifiers try the longer extension first, lazy ones the shorter,
alternation tries the left alternative first, and the first overall success
wins.  The fuel argument only bounds recursion depth; it is chosen large
enough to never be exhausted on the inputs considered here. -/

/-- A position inside the subject text: the characters before the position
(in reverse order) and the characters after it. -/
structure TxtPos where
  bef : List Char
  aft : List Char
deriving Repr, DecidableEq

/-- Captured groups: group index paired with the captured characters. -/
def Caps := List (Nat × List Char)

/-- The continuation-passing backtracking matcher.  `mrun fl re st cp k`
tries to match `re` at position `st` with captures `cp`, calling `k` on
every candidate way of matching and returning the first success. -/
def mrun (fl : Nat) (re : RE) (st : TxtPos) (cp : Caps)
    (k : TxtPos → Caps → Option (TxtPos × Caps)) : Option (TxtPos × Caps) :=
  match fl with
  | 0 => Option.none
  | Nat.succ fl =>
    match re with
    | RE.eps => k st cp
    | RE.lit c =>
      match st.aft with
      | [] => Option.none
      | a :: rest => if a = c then k ⟨a :: st.bef, rest⟩ cp else Option.none
    | RE.cls p =>
      match st.aft with
      | [] => Option.none
      | a :: rest => if p a then k ⟨a :: st.bef, rest⟩ cp else Option.none
    | RE.seq r1 r2 => mrun fl r1 st cp (fun st1 cp1 => mrun fl r2 st1 cp1 k)
    | RE.alt r1 r2 =>
      match mrun fl r1 st cp k with
      | Option.some res => Option.some res
      | Option.none => mrun fl r2 st cp k
    | RE.star lzy r =>
      if lzy then
        match k st cp with
        | Option.some res => Option.some res
        | Option.none =>
          mrun fl r st cp (fun st1 cp1 => mrun fl (RE.star lzy r) st1 cp1 k)
      else
        match mrun fl r st cp (fun st1 cp1 => mrun fl (RE.star lzy r) st1 cp1 k) with
        | Option.some res => Option.some res
        | Option.none => k st cp
    | RE.opt lzy r =>
      if lzy then
        match k st cp with
        | Option.some res => Option.some res
        | Option.none => mrun fl r st cp k
      else
        match mrun fl r st cp k with
        | Option.some res => Option.some res
        | Option.none => k st cp
    | RE.grp i r =>
      mrun fl r st cp (fun st1 cp1 =>
        k st1 ((i, st.aft.take (st1.bef.length - st.bef.length)) :: cp1))
    | RE.look r =>
      match mrun fl r st cp (fun s c => Option.some (s, c)) with
      | Option.some _ => k st cp
      | Option.none => Option.none
    | RE.bol =>
      match st.bef with
      | [] => k st cp
      | b :: _ => if b = '\n' then k st cp else Option.none
    | RE.bound =>
      let wl := match st.bef with
        | [] => false
        | b :: _ => isPyWord b
      let wr := match st.aft with
        | [] => false
        | a :: _ => isPyWord a
      if wl ≠ wr then k st cp else Option.none

/-- Fuel bound used by all matcher runs; never exhausted on the texts
considered here. -/
def matcherFuel : Nat := 1000000

/-- One full-pattern match: start and stop index of the overall match, and
the text of the capture groups 1, 2 and 3 (empty when a group is unset). -/
structure MatchRes where
  mstart : Nat
  mstop : Nat
  g1 : List Char
  g2 : List Char
  g3 : List Char
deriving Repr, DecidableEq

/-- Captured text of group `i` (empty list when the group is unset). -/
def capGet (cp : Caps) (i : Nat) : List Char :=
  match cp with
  | [] => []
  | (j, s) :: rest => if j = i then s else capGet rest i

/-- Try to match `re` exactly at position `st`. -/
def matchAt (re : RE) (st : TxtPos) : Option (TxtPos × Caps) :=
  mrun matcherFuel re st [] (fun s c => Option.some (s, c))

/-- Scan forward from `st` for the leftmost match of `re`, as Python's
`re.search` does; returns the start position, end position and captures. -/
def searchFrom (fl : Nat) (re : RE) (st : TxtPos) : Option (TxtPos × TxtPos × Caps) :=
  match fl with
  | 0 => Option.none
  | Nat.succ fl =>
    match matchAt re st with
    | Option.some (endSt, cp) => Option.some (st, endSt, cp)
    | Option.none =>
      match st.aft with
      | [] => Option.none
      | a :: rest => searchFrom fl re ⟨a :: st.bef, rest⟩

/-- Build the match record from start/end positions and captures. -/
def mkMatch (sSt eSt : TxtPos) (cp : Caps) : MatchRes :=
  ⟨sSt.bef.length, eSt.bef.length, capGet cp 1, capGet cp 2, capGet cp 3⟩

/-- All successive non-overlapping matches of `re` from position `st`,
scanning left to right as Python's `re.finditer` does (an empty match
advances the scan position by one character). -/
def finditerAux (fl : Nat) (re : RE) (st : TxtPos) : List MatchRes :=
  match fl with
  | 0 => []
  | Nat.succ fl =>
    match searchFrom (st.aft.length + 1) re st with
    | Option.none => []
    | Option.some (sSt, eSt, cp) =>
      let m := mkMatch sSt eSt cp
      if eSt.bef.length = sSt.bef.length then
        match eSt.aft with
        | [] => [m]
        | a :: rest => m :: finditerAux fl re ⟨a :: eSt.bef, rest⟩
      else
        m :: finditerAux fl re eSt

/-- Python `re.search` over a whole text. -/
def reSearch (re : RE) (l : List Char) : Option MatchRes :=
  match searchFrom (l.length + 1) re ⟨[], l⟩ with
  | Option.none => Option.none
  | Option.some (sSt, eSt, cp) => Option.some (mkMatch sSt eSt cp)

/-! ### The message pattern

Source, `twitch.py` lines 1007-1008:
`_MESSAGE_REGEX = re.compile(r'^@(.+?(?=\s+:)).*tmi\.twitch\.tv\s+(\S+)(?:.+#\S+)?(?:.:)*([^\r\n]*)', re.MULTILINE)`
Groups: 1 tag info, 2 action type, 3 message. -/

/-- `\s+` (greedy). -/
def RE.wsPlus : RE :=
  RE.plusG (RE.cls isPySpace)

/-- The compiled `_MESSAGE_REGEX` of the source, constructor by
constructor: `^` `@` `(.+?(?=\s+:))` `.*` `tmi\.twitch\.tv` `\s+` `(\S+)`
`(?:.+#\S+)?` `(?:.:)*` `([^\r\n]*)`. -/
def twitchMsgRe : RE :=
  RE.seqList
    [ RE.bol
    , RE.lit '@'
    , RE.grp 1 (RE.seq (RE.plusL RE.dot) (RE.look (RE.seq RE.wsPlus (RE.lit ':'))))
    , RE.star false RE.dot
    , RE.litStr "tmi.twitch.tv"
    , RE.wsPlus
    , RE.grp 2 (RE.plusG (RE.cls (fun c => ¬ isPySpace c)))
    , RE.opt false (RE.seqList
        [ RE.plusG RE.dot
        , RE.lit '#'
        , RE.plusG (RE.cls (fun c => ¬ isPySpace c)) ])
    , RE.star false (RE.seq RE.dot (RE.lit ':'))
    , RE.grp 3 (RE.star false (RE.cls (fun c => c ≠ '\r' ∧ c ≠ '\n'))) ]

/-- `re.finditer(_MESSAGE_REGEX, text)`. -/
def finditer (l : List Char) : List MatchRes :=
  finditerAux (l.length + 1) twitchMsgRe ⟨[], l⟩

/-! ### The live read loop's buffering logic

Source, `twitch.py` lines 1280-1363 (the body of one iteration of the
`while True:` read loop of `_get_chat_messages_by_stream_id`, restricted to
its buffer-and-match logic; the ping answer does not modify the buffer and
the socket/timeout handling is outside the buffering behaviour): append the
received chunk to the buffer, list the pattern matches, then

  * some matches and the buffer ends with the terminator: yield all
    matches, reset the buffer;
  * some matches, no final terminator: take the suffix from the start of
    the final match; if the terminator occurs in that suffix, yield all
    matches and retain only the part after the final match's end, else
    drop the final match from the yielded list and retain the suffix;
  * no matches and the buffer ends with the terminator: discard the buffer;
  * no matches otherwise: keep the buffer as is. -/

/-- Python `'\r\n' in s`. -/
def containsCRLF : List Char → Bool
  | '\r' :: '\n' :: _ => true
  | _ :: rest => containsCRLF rest
  | [] => false

/-- Python `s.endswith('\r\n')`. -/
def endsWithCRLF (l : List Char) : Bool :=
  match l.reverse with
  | '\n' :: '\r' :: _ => true
  | _ => false

/-- One iteration of the read loop's buffer-and-match logic: previous
buffer plus received chunk; returns the matches yielded downstream and the
retained buffer. -/
def stepFn (buffer chunk : List Char) : List MatchRes × List Char :=
  let buf := buffer ++ chunk
  let ms := finditer buf
  let full := endsWithCRLF buf
  match ms.getLast? with
  | Option.none => if full then ([], []) else ([], buf)
  | Option.some m =>
    if full then (ms, [])
    else
      let passOn := buf.drop m.mstart
      if containsCRLF passOn then (ms, buf.drop m.mstop)
      else (ms.dropLast, passOn)

/-- Feeding a sequence of chunks through the read loop's buffering logic
starting from the given buffer: all yielded matches plus final buffer. -/
def processChunksFrom (buffer : List Char) : List (List Char) → List MatchRes × List Char
  | [] => ([], buffer)
  | c :: cs =>
    let (ys, b) := stepFn buffer c
    let (ys2, b2) := processChunksFrom b cs
    (ys ++ ys2, b2)

/-- Feeding a sequence of chunks through the read loop's buffering logic
starting from the empty buffer. -/
def processChunks (chunks : List (List Char)) : List MatchRes × List Char :=
  processChunksFrom [] chunks

/-- The data of a match as handed to the message parser: the three
captured groups. -/
def matchTriple (m : MatchRes) : List Char × List Char × List Char :=
  (m.g1, m.g2, m.g3)

/-! ### Claims C1, C2, C7: the read loop's buffering behaviour -/

/-- First adversarial stream for C1: the pattern's `\s+` can match the
`\r\n` terminator, so a match of the concatenation spans two wire lines. -/
def c1ChunkA : List Char := "@a=b :x.tmi.twitch.tv\r\n".data

/-- Second chunk of the first adversarial stream for C1. -/
def c1ChunkB : List Char := "PING hello\r\n".data

/-- First chunk of the second adversarial stream for C1: the intermediate
buffer ends in a truncated match that is nevertheless followed by a
terminator, so the pass-on heuristic misclassifies it as complete. -/
def c1ChunkC : List Char := "@a=b :x.tmi.twitch.tv\r\nPI".data

/-- Second chunk of the second adversarial stream for C1. -/
def c1ChunkD : List Char := "NG hello\r\n".data

/-- C1 is false on the code.  Stream one (terminator-aligned chunks): the
chunked run yields nothing while the one-shot match of the concatenation
yields one line, because the single match of the concatenation spans the
`\r\n` terminator through the pattern's `\s+`.  Stream two: the chunked run
yields a line (groups `a=b` / `PI` / empty) that the one-shot match set of
the concatenation does not contain, because the truncated final match is
followed by a terminator and is therefore misclassified as complete. -/
theorem c1_counterexample :
    ((processChunks [c1ChunkA, c1ChunkB]).1 = []
      ∧ (finditer (c1ChunkA ++ c1ChunkB)).length = 1)
    ∧ ((processChunks [c1ChunkC, c1ChunkD]).1.map matchTriple
          = [("a=b".data, "PI".data, [])]
      ∧ ("a=b".data, "PI".data, ([] : List Char))
          ∉ (finditer (c1ChunkC ++ c1ChunkD)).map matchTriple) := by
  refine ⟨⟨by decide, by decide⟩, by decide, by decide⟩

/-- When a whole buffer ends with the terminator, one read-loop step on it
yields exactly its matches and resets the buffer. -/
theorem stepFn_of_endsWithCRLF (c : List Char) (h : endsWithCRLF c = true) :
    stepFn [] c = (finditer c, []) := by
  unfold stepFn
  simp only [List.nil_append]
  cases hm : (finditer c).getLast? with
  | none =>
    have : finditer c = [] := by
      cases hfin : finditer c with
      | nil => rfl
      | cons a l => rw [hfin] at hm; simp [List.getLast?] at hm
    simp [h, this]
  | some m => simp [h]

/-- C1, amended.  Chunk-invariance of the buffering holds for chunk
sequences in which every chunk ends with the `\r\n` terminator and no match
of the concatenated stream crosses a chunk boundary (the per-chunk match
lists concatenate to the whole-stream match list): feeding such chunks one
at a time yields exactly the match list of the concatenation. -/
theorem c1_chunk_invariance_amended (chunks : List (List Char))
    (hend : ∀ c ∈ chunks, endsWithCRLF c = true)
    (hcross : (finditer chunks.flatten).map matchTriple
        = (chunks.map (fun c => (finditer c).map matchTriple)).flatten) :
    (processChunks chunks).1.map matchTriple = (finditer chunks.flatten).map matchTriple := by
  have key : ∀ (l : List (List Char)), (∀ c ∈ l, endsWithCRLF c = true) →
      processChunksFrom [] l = ((l.map finditer).flatten, []) := by
    intro l
    induction l with
    | nil => intro _; rfl
    | cons c cs ih =>
      intro hl
      have hc : endsWithCRLF c = true := hl c (List.mem_cons_self c cs)
      have hcs : ∀ d ∈ cs, endsWithCRLF d = true :=
        fun d hd => hl d (List.mem_cons_of_mem c hd)
      simp only [processChunksFrom, stepFn_of_endsWithCRLF c hc, ih hcs,
        List.map_cons, List.flatten]
  rw [processChunks, key chunks hend, hcross, List.map_flatten, List.map_map]
  exact congrArg List.flatten (List.map_congr_left (fun c _ => rfl))

/-- Witness stream for the amended C1: two complete wire lines sent as two
terminator-ended chunks, with no cross-boundary match. -/
def c1WitChunk1 : List Char := "@a=b :u!u@u.tmi.twitch.tv PRIVMSG #c :hi\r\n".data

/-- Second witness chunk for the amended C1. -/
def c1WitChunk2 : List Char := "@c=d :v!v@v.tmi.twitch.tv PRIVMSG #c :yo\r\n".data

theorem c1_amended_witness :
    (processChunks [c1WitChunk1, c1WitChunk2]).1.map matchTriple
      = (finditer ([c1WitChunk1, c1WitChunk2] : List (List Char)).flatten).map matchTriple :=
  c1_chunk_invariance_amended [c1WitChunk1, c1WitChunk2] (by decide) (by decide)

/-- C2, confirmed.  One read-loop step on a buffer that has at least one
match but does not end with the terminator: the suffix of the buffer from
the final match's start is retained and the final match is dropped from the
yielded list, unless a terminator occurs somewhere in that suffix, in which
case all matches (the final one included) are yielded and only the part of
the buffer after the final match's end is retained. -/
theorem c2_partial_match_retention (buffer chunk : List Char) (m : MatchRes)
    (hlast : (finditer (buffer ++ chunk)).getLast? = Option.some m)
    (hterm : endsWithCRLF (buffer ++ chunk) = false) :
    (containsCRLF ((buffer ++ chunk).drop m.mstart) = false →
      stepFn buffer chunk
        = ((finditer (buffer ++ chunk)).dropLast, (buffer ++ chunk).drop m.mstart))
    ∧ (containsCRLF ((buffer ++ chunk).drop m.mstart) = true →
      stepFn buffer chunk
        = (finditer (buffer ++ chunk), (buffer ++ chunk).drop m.mstop)) := by
  constructor <;> intro h <;> simp [stepFn, hlast, hterm, h]

/-- Concrete buffer for the C2 witness: one truncated message with no
terminator anywhere. -/
def c2Chunk : List Char := "@a=b :x!x@x.tmi.twitch.tv PRIVMSG #c :hi".data

theorem c2_witness :
    stepFn [] c2Chunk = ((finditer ([] ++ c2Chunk)).dropLast, ([] ++ c2Chunk).drop 0) :=
  (c2_partial_match_retention [] c2Chunk
      ⟨0, 40, "a=b".data, "PRIVMSG".data, "hi".data⟩
      (by decide) (by decide)).1 (by decide)

/-- Noise buffer for the C7 counterexample: a `\r\n` terminator is present
in the middle, no pattern match exists, and the buffer does not end with
the terminator. -/
def c7Noise : List Char := "X\r\nY".data

/-- C7 is false on the code.  With no matches and a terminator present but
not final, the read loop retains the buffer unchanged instead of
discarding it: the code discards only when the buffer ends with `\r\n`. -/
theorem c7_counterexample :
    finditer c7Noise = []
    ∧ containsCRLF c7Noise = true
    ∧ (stepFn [] c7Noise).2 = c7Noise
    ∧ c7Noise ≠ [] := by
  refine ⟨by decide, by decide, by decide, by decide⟩

/-- C7, amended.  When the pattern produces no matches at all, the read
loop discards the buffer exactly when the buffer ends with the `\r\n`
terminator; otherwise the buffer is kept unchanged for the next read. -/
theorem c7_no_match_discard_amended (buffer chunk : List Char)
    (hnm : finditer (buffer ++ chunk) = []) :
    (endsWithCRLF (buffer ++ chunk) = true → stepFn buffer chunk = ([], []))
    ∧ (endsWithCRLF (buffer ++ chunk) = false →
        stepFn buffer chunk = ([], buffer ++ chunk)) := by
  constructor <;> intro h <;> simp [stepFn, hnm, h]

/-- Terminator-final noise for the C7 amended witness. -/
def c7NoiseFull : List Char := ":tmi.twitch.tv 001 justinfan67420\r\n".data

theorem c7_amended_witness :
    stepFn [] c7NoiseFull = ([], []) :=
  (c7_no_match_discard_amended [] c7NoiseFull (by decide)).1 (by decide)

/-! ### Part 2: values, dictionaries and Python-level helpers

Events are Python dictionaries mapping canonical field names to values of
heterogeneous types; `Val` is the value universe and `Info` an
insertion-ordered dictionary with Python `dict` semantics (updating an
existing key keeps its position, a new key is appended). -/

/-- The Python exceptions that the embedded code can raise. -/
inductive PyErr where
  | typeError : PyErr
  | valueError : PyErr
  | keyError : PyErr
  | attributeError : PyErr
deriving Repr, DecidableEq

/-- Python values appearing in canonical events: `None`, booleans,
integers, strings, lists and nested dictionaries. -/
inductive Val where
  | vnone : Val
  | vbool : Bool → Val
  | vint : Int → Val
  | vstr : String → Val
  | vlist : List Val → Val
  | vobj : List (String × Val) → Val
deriving Repr

/-- An insertion-ordered dictionary from canonical field names to values. -/
abbrev Info := List (String × Val)

/-- Python `d.get(k)` (with `None` expressed as `Option.none`). -/
def dget (info : Info) (k : String) : Option Val :=
  match info with
  | [] => Option.none
  | (k1, v) :: rest => if k1 = k then Option.some v else dget rest k

/-- Python `d[k] = v`: update in place when the key exists (keeping its
position), append otherwise. -/
def dset (info : Info) (k : String) (v : Val) : Info :=
  match info with
  | [] => [(k, v)]
  | (k1, v1) :: rest => if k1 = k then (k1, v) :: rest else (k1, v1) :: dset rest k v

/-- Python `d.pop(k, default)`: the removed value (when present) and the
remaining dictionary. -/
def dpop (info : Info) (k : String) : Option Val × Info :=
  match info with
  | [] => (Option.none, [])
  | (k1, v) :: rest =>
    if k1 = k then (Option.some v, rest)
    else
      let (r, rest1) := dpop rest k
      (r, (k1, v) :: rest1)

/-- Python truthiness of a value. -/
def pyTruthy : Val → Bool
  | Val.vnone => false
  | Val.vbool b => b
  | Val.vint n => n != 0
  | Val.vstr s => s != ""
  | Val.vlist l => !l.isEmpty
  | Val.vobj l => !l.isEmpty

/-- Python `str(v)` for the value shapes that reach string formatting. -/
def pyStr : Val → String
  | Val.vnone => "None"
  | Val.vbool b => if b then "True" else "False"
  | Val.vint n => toString n
  | Val.vstr s => s
  | Val.vlist _ => "<list>"
  | Val.vobj _ => "<dict>"

/-! ### String helpers with Python semantics -/

/-- Python `s.split(sep)` for a one-character separator (an empty text
splits to one empty item). -/
def mySplit (c : Char) : List Char → List (List Char)
  | [] => [[]]
  | a :: rest =>
    let r := mySplit c rest
    if a = c then [] :: r
    else
      match r with
      | h :: t => (a :: h) :: t
      | [] => [[a]]

/-- Python `s.split(sep, 1)` for a one-character separator: the part before
the first occurrence and the part after it, or nothing when the separator
is absent. -/
def splitFirstChar (c : Char) : List Char → Option (List Char × List Char)
  | [] => Option.none
  | a :: rest =>
    if a = c then Option.some ([], rest)
    else
      match splitFirstChar c rest with
      | Option.some (l, r) => Option.some (a :: l, r)
      | Option.none => Option.none

/-- Python `s.replace('-', '_')`. -/
def dashToUnderscoreStr (s : String) : String :=
  String.mk (s.data.map (fun c => if c = '-' then '_' else c))

/-- All-decimal-digit parse of a non-empty character list. -/
def digitsToNat : List Char → Option Nat
  | [] => Option.none
  | l => go l 0
where
  go : List Char → Nat → Option Nat
  | [], acc => Option.some acc
  | c :: rest, acc =>
    if isPyDigit c then go rest (acc * 10 + (c.toNat - '0'.toNat))
    else Option.none

/-- Python `int(s)` on a string, as an optional value: an optional sign
followed by at least one decimal digit. -/
def strToInt? (s : String) : Option Int :=
  match s.data with
  | '-' :: rest => (digitsToNat rest).map (fun n => -(n : Int))
  | '+' :: rest => (digitsToNat rest).map (fun n => (n : Int))
  | l => (digitsToNat l).map (fun n => (n : Int))

/-- Modelled from the spec: the missing `utils.int_or_none` parses a value
as an integer and yields the absent value on failure instead of raising
(the transform failure policy of spec section 4.1).  Python `int` accepts
integers, booleans and numeric strings; every other input fails. -/
def toIntOrNone : Val → Option Int
  | Val.vint n => Option.some n
  | Val.vbool b => Option.some (if b then 1 else 0)
  | Val.vstr s => strToInt? s
  | _ => Option.none

/-- Python `int(v)` where failure raises (`ValueError` on an unparseable
string, `TypeError` on a non-numeric type). -/
def toIntStrict : Val → Except PyErr Int
  | Val.vint n => Except.ok n
  | Val.vbool b => Except.ok (if b then 1 else 0)
  | Val.vstr s =>
    match strToInt? s with
    | Option.some n => Except.ok n
    | Option.none => Except.error PyErr.valueError
  | _ => Except.error PyErr.typeError

/-- `int_or_none(v, v)`: the parsed integer when the value parses, the
original value otherwise (used for badge versions). -/
def intOrSelfV (v : Val) : Val :=
  match toIntOrNone v with
  | Option.some n => Val.vint n
  | Option.none => v

/-- Option-to-value for transform results (`None` becomes `vnone`). -/
def optIntToVal : Option Int → Val
  | Option.some n => Val.vint n
  | Option.none => Val.vnone

/-- Python `v == s` for a string literal `s` (equality across types is
`False`). -/
def valEqStr (v : Val) (s : String) : Bool :=
  match v with
  | Val.vstr t => t = s
  | _ => false

/-- Modelled from the spec: the missing `utils.remove_prefixes` strips a
given marker from the front of the message body when present (used for the
`\u0001ACTION ` marker of `/me` messages, spec section 4.3 surfacing of
bodies). -/
def stripPrefixIfPresent (pfx l : List Char) : List Char :=
  if pfx.isPrefixOf l then l.drop pfx.length else l

/-- The `\u0001ACTION ` marker stripped from message bodies. -/
def actionMarker : List Char := '\x01' :: "ACTION ".data

/-- Python `s.replace('\' ++ x, r)` for the two-character escape sequences
of the tag escaping convention (left-to-right, non-overlapping). -/
def replaceEsc (x r : Char) : List Char → List Char
  | '\\' :: y :: rest =>
    if y = x then r :: replaceEsc x r rest
    else '\\' :: replaceEsc x r (y :: rest)
  | a :: rest => a :: replaceEsc x r rest
  | [] => []

/-- `decode_pseudo_BNF` of the source (`twitch.py` lines 1099-1104):
decode text according to the message-tags escaping convention by replacing
the escaped semicolon and the escaped space, in that order. -/
def decodePseudoBNF (l : List Char) : List Char :=
  replaceEsc 's' ' ' (replaceEsc ':' ';' l)

/-! ### The tag remapping engine -/

/-- The named transforms of `_REMAP_FUNCTIONS` (`twitch.py` lines
182-201), as a fixed enumeration. -/
inductive RemapFnId where
  | parse_timestamp : RemapFnId
  | parse_author_images : RemapFnId
  | parse_badges : RemapFnId
  | multiply_by_1000 : RemapFnId
  | parse_int : RemapFnId
  | parse_bool : RemapFnId
  | parse_bool_text : RemapFnId
  | replace_with_underscores : RemapFnId
  | parse_subscription_type : RemapFnId
  | parse_commenter : RemapFnId
  | parse_message_info : RemapFnId
  | decode_pseudo_BNF : RemapFnId
deriving Repr, DecidableEq

/-- An entry of a remapping table: either a bare canonical name or a
(name, transform) pair. -/
inductive RemapEntry where
  | plain : String → RemapEntry
  | fn : String → RemapFnId → RemapEntry
deriving Repr

/-- Association-list lookup in a remapping table. -/
def tlookup (table : List (String × RemapEntry)) (k : String) : Option RemapEntry :=
  match table with
  | [] => Option.none
  | (k1, e) :: rest => if k1 = k then Option.some e else tlookup rest k

/-- Modelled from the spec (section 4.1): the missing
`common.ChatDownloader.remap`.  Given a raw key, a raw value, a remapping
table and the transform table, produce zero or one canonical pair and merge
it into the destination: an unmapped key is ignored unless pass-through is
requested (then its name is underscore-normalized when asked for); a bare
canonical name copies the value verbatim; a (name, transform) entry invokes
the transform on the raw value.  The engine itself does not intercept
exceptions: containment of malformed values relies on the transforms
returning a null value instead of raising. -/
def remap (apply : RemapFnId → Val → Except PyErr Val)
    (table : List (String × RemapEntry)) (info : Info)
    (key : String) (value : Val) (keepUnknown : Bool) (dashUnderscore : Bool) :
    Except PyErr Info :=
  match tlookup table key with
  | Option.some (RemapEntry.plain name) => Except.ok (dset info name value)
  | Option.some (RemapEntry.fn name f) => do
    let v ← apply f value
    Except.ok (dset info name v)
  | Option.none =>
    if keepUnknown then
      Except.ok (dset info (if dashUnderscore then dashToUnderscoreStr key else key) value)
    else Except.ok info

/-- Modelled from the spec (section 4.1): the missing
`common.ChatDownloader.move_to_dict` relocates all keys matching the
prefixed convention `name ++ "_"` into a sub-object stored under `name`
(prefix stripped), assembling the `author` and `in_reply_to`
sub-structures; the sub-object is only attached when it is non-empty.
Returns the updated dictionary and the sub-object. -/
def moveToDict (info : Info) (name : String) : Info × Info :=
  let pfx := name ++ "_"
  let moved := info.filter (fun kv => pfx.data.isPrefixOf kv.1.data)
  let kept := info.filter (fun kv => !(pfx.data.isPrefixOf kv.1.data))
  let sub := moved.map (fun kv => (String.mk (kv.1.data.drop pfx.data.length), kv.2))
  if sub.isEmpty then (kept, sub) else (dset kept name (Val.vobj sub), sub)

/-- Modelled from the spec: the missing `utils.multi_get` walks a chain of
keys through nested objects, yielding nothing when a key is missing or the
value at hand is not an object. -/
def multiGet (v : Val) : List String → Option Val
  | [] => Option.some v
  | k :: rest =>
    match v with
    | Val.vobj o =>
      match dget o k with
      | Option.some v1 => multiGet v1 rest
      | Option.none => Option.none
    | _ => Option.none

/-! ### Badges (`twitch.py` lines 1016-1078, 1107-1115) -/

/-- `_SUBSCRIPTION_TYPES` (`twitch.py` lines 175-180). -/
def subscriptionTypes : List (String × String) :=
  [ ("Prime", "Prime")
  , ("1000", "Tier 1")
  , ("2000", "Tier 2")
  , ("3000", "Tier 3") ]

/-- `_set_subscriber_badge_info` (`twitch.py` lines 1107-1115): a nonzero
month count is attached to the badge along with a derived title; the title
formatting uses the original months value.  `int(months)` raises on a
non-numeric value. -/
def setSubscriberBadgeInfo (badge : Info) (months : Val) : Except PyErr Info := do
  let num ← toIntStrict months
  if num ≠ 0 then
    let title := pyStr months ++ "-Month " ++ "Subscriber"
    Except.ok (dset (dset (dset badge "months" (Val.vint num)) "title" (Val.vstr title))
      "description" (Val.vstr title))
  else
    Except.ok (dset (dset badge "title" (Val.vstr "Subscriber"))
      "description" (Val.vstr "Subscriber"))

/-- `parse_badge_info` (`twitch.py` lines 1020-1053).  The process-wide
badge catalog `_BADGE_INFO` is instance state fetched over HTTP at client
construction; it is modelled as the empty catalog, under which the
catalog branch finds nothing and the badge keeps only name and version
(the spec's Badge invariant for catalog misses). -/
def parseBadgeInfo (name version : Val) (setSub : Bool) : Except PyErr Info := do
  let nm ← match name with
    | Val.vstr s => Except.ok s
    | _ => Except.error PyErr.attributeError
  let badge : Info := [("name", Val.vstr (dashToUnderscoreStr nm)), ("version", intOrSelfV version)]
  if nm = "subscriber" then
    if setSub then setSubscriberBadgeInfo badge version else Except.ok badge
  else
    Except.ok badge

/-- `parse_badges` (`twitch.py` lines 1055-1078) on the raw tag value: a
falsy value gives the empty badge list; otherwise the string splits on
commas, each item on its first slash (a missing slash gives a `None`
version), and each pair goes through `parse_badge_info`. -/
def parseBadgesVal (v : Val) : Except PyErr Val :=
  if !pyTruthy v then Except.ok (Val.vlist [])
  else
    match v with
    | Val.vstr s => do
      let items ← (mySplit ',' s.data).mapM (fun item => do
        let (nm, ver) := match splitFirstChar '/' item with
          | Option.some (l, r) => (l, Val.vstr (String.mk r))
          | Option.none => (item, Val.vnone)
        let b ← parseBadgeInfo (Val.vstr (String.mk nm)) ver false
        pure (Val.vobj b))
      Except.ok (Val.vlist items)
    | _ => Except.error PyErr.attributeError

/-- Python `d.get(k)` with the `None` result as a value. -/
def dgetN (info : Info) (k : String) : Val :=
  (dget info k).getD Val.vnone

/-- Python `s.replace(pat, rep)` for non-empty string patterns
(left-to-right, non-overlapping). -/
def replaceSubAux (fl : Nat) (pat rep l : List Char) : List Char :=
  match fl with
  | 0 => l
  | Nat.succ fl =>
    if pat.isPrefixOf l then rep ++ replaceSubAux fl pat rep (l.drop pat.length)
    else
      match l with
      | [] => []
      | a :: rest => a :: replaceSubAux fl pat rep rest

/-- Python `s.replace(pat, rep)`. -/
def replaceSub (pat rep l : List Char) : List Char :=
  replaceSubAux l.length pat rep l

/-- Modelled from the spec (section 6 exposes badge icons and author
images as url-plus-dimensions descriptors): the missing
`common.ChatDownloader.create_image`. -/
def createImage (url : Val) (w h : Int) : Val :=
  Val.vobj [("url", url), ("width", Val.vint w), ("height", Val.vint h)]

/-- `parse_author_images` (`twitch.py` lines 645-651): the original icon
url plus a 70x70 variant derived by substituting the size in the url. -/
def parseAuthorImages (v : Val) : Except PyErr Val :=
  match v with
  | Val.vstr u =>
    Except.ok (Val.vlist
      [ createImage (Val.vstr u) 300 300
      , createImage (Val.vstr (String.mk (replaceSub "300x300".data "70x70".data u.data))) 70 70 ])
  | _ => Except.error PyErr.attributeError

/-- Modelled from the spec (section 6: `timestamp` is epoch microseconds
where derivable; the backend's concrete timestamp format is outside the
spec's vocabulary): the missing `utils.timestamp_to_microseconds`, as a
lenient numeric parse that yields the absent value when not derivable
(the transform failure policy of section 4.1). -/
def timestampToMicroseconds (v : Val) : Val :=
  match v with
  | Val.vstr s =>
    match strToInt? s with
    | Option.some n => Val.vint n
    | Option.none => Val.vnone
  | Val.vint n => Val.vint n
  | _ => Val.vnone

/-- Two-digit rendering of a sexagesimal component. -/
def twoDigits (n : Nat) : String :=
  if n < 10 then "0" ++ toString n else toString n

/-- Modelled from the spec (section 4.4: a human-readable mm:ss or
h:mm:ss rendering of a stream-relative time): the missing
`utils.seconds_to_time`. -/
def secondsToTime (t : Int) : String :=
  let a := t.natAbs
  let core :=
    if a / 3600 > 0 then
      toString (a / 3600) ++ ":" ++ twoDigits (a % 3600 / 60) ++ ":" ++ twoDigits (a % 60)
    else
      toString (a % 3600 / 60) ++ ":" ++ twoDigits (a % 60)
  if t < 0 then "-" ++ core else core

/-- `_AUTHOR_REMAPPING` (`twitch.py` lines 202-212). -/
def authorRemapping : List (String × RemapEntry) :=
  [ ("_id", RemapEntry.fn "id" RemapFnId.parse_int)
  , ("name", RemapEntry.plain "name")
  , ("display_name", RemapEntry.plain "display_name")
  , ("logo", RemapEntry.fn "images" RemapFnId.parse_author_images)
  , ("type", RemapEntry.plain "type")
  , ("created_at", RemapEntry.fn "created_at" RemapFnId.parse_timestamp)
  , ("bio", RemapEntry.plain "bio") ]

/-- The scalar transforms shared by every transform table (the lambdas of
`_REMAP_FUNCTIONS`, `twitch.py` lines 182-201).  `multiply_by_1000` is
`int_or_none(x) * 1000`: multiplying the `None` of a failed parse raises a
`TypeError`.  The recursive transforms `parse_commenter` and
`parse_message_info` never occur in the author table and are rejected
here. -/
def applyAuthorFn (f : RemapFnId) (v : Val) : Except PyErr Val :=
  match f with
  | RemapFnId.parse_timestamp => Except.ok (timestampToMicroseconds v)
  | RemapFnId.parse_author_images => parseAuthorImages v
  | RemapFnId.parse_badges => parseBadgesVal v
  | RemapFnId.multiply_by_1000 =>
    match toIntOrNone v with
    | Option.some n => Except.ok (Val.vint (n * 1000))
    | Option.none => Except.error PyErr.typeError
  | RemapFnId.parse_int => Except.ok (optIntToVal (toIntOrNone v))
  | RemapFnId.parse_bool => Except.ok (Val.vbool (valEqStr v "1"))
  | RemapFnId.parse_bool_text => Except.ok (Val.vbool (valEqStr v "true"))
  | RemapFnId.replace_with_underscores =>
    match v with
    | Val.vstr s => Except.ok (Val.vstr (dashToUnderscoreStr s))
    | _ => Except.error PyErr.attributeError
  | RemapFnId.parse_subscription_type =>
    match v with
    | Val.vstr s =>
      Except.ok (match subscriptionTypes.lookup s with
        | Option.some t => Val.vstr t
        | Option.none => Val.vnone)
    | _ => Except.ok Val.vnone
  | RemapFnId.decode_pseudo_BNF =>
    match v with
    | Val.vstr s => Except.ok (Val.vstr (String.mk (decodePseudoBNF s.data)))
    | _ => Except.error PyErr.attributeError
  | RemapFnId.parse_commenter => Except.error PyErr.typeError
  | RemapFnId.parse_message_info => Except.error PyErr.typeError

/-- `parse_commenter` (`twitch.py` lines 1080-1086): every key of the
commenter object goes through the author remapping; a missing commenter
gives the empty author. -/
def parseCommenter (v : Val) : Except PyErr Val :=
  if !pyTruthy v then Except.ok (Val.vobj [])
  else
    match v with
    | Val.vobj o => do
      let info ← o.foldlM
        (fun info kv => remap applyAuthorFn authorRemapping info kv.1 kv.2 false false)
        ([] : Info)
      Except.ok (Val.vobj info)
    | _ => Except.error PyErr.typeError

/-- `parse_message_info` (`twitch.py` lines 1088-1097): body, colour, the
badge list (built with subscriber-tenure attachment) and the user-notice
parameters of a replay comment's message object. -/
def parseMessageInfo (v : Val) : Except PyErr Val :=
  match v with
  | Val.vobj m => do
    let rawBadges := dgetN m "user_badges"
    let badgeItems ←
      if !pyTruthy rawBadges then Except.ok ([] : List Val)
      else
        match rawBadges with
        | Val.vlist l =>
          l.mapM (fun x =>
            match x with
            | Val.vobj o => do
              let b ← parseBadgeInfo (dgetN o "_id") (dgetN o "version") true
              pure (Val.vobj b)
            | _ => Except.error PyErr.attributeError)
        | _ => Except.error PyErr.attributeError
    Except.ok (Val.vobj
      [ ("message", dgetN m "body")
      , ("colour", dgetN m "user_color")
      , ("badges", Val.vlist badgeItems)
      , ("user_notice_params", dgetN m "user_notice_params") ])
  | _ => Except.error PyErr.attributeError

/-- The full transform table `_REMAP_FUNCTIONS` (`twitch.py` lines
182-201): the scalar transforms plus the two recursive ones. -/
def applyRemapFn (f : RemapFnId) (v : Val) : Except PyErr Val :=
  match f with
  | RemapFnId.parse_commenter => parseCommenter v
  | RemapFnId.parse_message_info => parseMessageInfo v
  | _ => applyAuthorFn f v

/-- `_MESSAGE_PARAM_REMAPPING` (`twitch.py` lines 227-313). -/
def messageParamRemapping : List (String × RemapEntry) :=
  [ ("msg-id", RemapEntry.plain "message_type")
  , ("msg-param-cumulative-months", RemapEntry.fn "cumulative_months" RemapFnId.parse_int)
  , ("msg-param-months", RemapEntry.fn "months" RemapFnId.parse_int)
  , ("msg-param-displayName", RemapEntry.plain "raider_display_name")
  , ("msg-param-login", RemapEntry.plain "raider_name")
  , ("msg-param-viewerCount", RemapEntry.fn "number_of_raiders" RemapFnId.parse_int)
  , ("msg-param-promo-name", RemapEntry.plain "promotion_name")
  , ("msg-param-promo-gift-total", RemapEntry.plain "number_of_gifts_given_during_promo")
  , ("msg-param-recipient-id", RemapEntry.plain "gift_recipient_id")
  , ("msg-param-recipient-user-name", RemapEntry.plain "gift_recipient_display_name")
  , ("msg-param-recipient-display-name", RemapEntry.plain "gift_recipient_display_name")
  , ("msg-param-gift-months", RemapEntry.fn "number_of_months_gifted" RemapFnId.parse_int)
  , ("msg-param-sender-login", RemapEntry.plain "gifter_name")
  , ("msg-param-sender-name", RemapEntry.plain "gifter_display_name")
  , ("msg-param-should-share-streak", RemapEntry.fn "user_wants_to_share_streaks" RemapFnId.parse_bool)
  , ("msg-param-streak-months", RemapEntry.fn "number_of_consecutive_months_subscribed" RemapFnId.parse_int)
  , ("msg-param-sub-plan", RemapEntry.fn "subscription_type" RemapFnId.parse_subscription_type)
  , ("msg-param-sub-plan-name", RemapEntry.plain "subscription_plan_name")
  , ("msg-param-ritual-name", RemapEntry.plain "ritual_name")
  , ("msg-param-threshold", RemapEntry.plain "bits_badge_tier")
  , ("msg-param-multimonth-duration", RemapEntry.fn "multimonth_duration" RemapFnId.parse_int)
  , ("msg-param-multimonth-tenure", RemapEntry.fn "multimonth_tenure" RemapFnId.parse_int)
  , ("msg-param-was-gifted", RemapEntry.fn "was_gifted" RemapFnId.parse_bool_text)
  , ("msg-param-gifter-id", RemapEntry.plain "gifter_id")
  , ("msg-param-gifter-login", RemapEntry.plain "gifter_name")
  , ("msg-param-gifter-name", RemapEntry.plain "gifter_display_name")
  , ("msg-param-anon-gift", RemapEntry.fn "was_anonymous_gift" RemapFnId.parse_bool_text)
  , ("msg-param-gift-month-being-redeemed", RemapEntry.fn "gift_months_being_redeemed" RemapFnId.parse_int)
  , ("msg-param-domain", RemapEntry.plain "domain")
  , ("msg-param-selected-count", RemapEntry.fn "selected_count" RemapFnId.parse_int)
  , ("msg-param-trigger-type", RemapEntry.plain "trigger_type")
  , ("msg-param-total-reward-count", RemapEntry.fn "total_reward_count" RemapFnId.parse_int)
  , ("msg-param-trigger-amount", RemapEntry.fn "trigger_amount" RemapFnId.parse_int)
  , ("msg-param-origin-id", RemapEntry.plain "origin_id")
  , ("msg-param-sender-count", RemapEntry.fn "sender_count" RemapFnId.parse_int)
  , ("msg-param-mass-gift-count", RemapEntry.fn "mass_gift_count" RemapFnId.parse_int)
  , ("msg-param-prior-gifter-anonymous", RemapEntry.fn "prior_gifter_anonymous" RemapFnId.parse_bool_text)
  , ("msg-param-prior-gifter-user-name", RemapEntry.plain "prior_gifter_name")
  , ("msg-param-prior-gifter-display-name", RemapEntry.plain "prior_gifter_display_name")
  , ("msg-param-prior-gifter-id", RemapEntry.plain "prior_gifter_id")
  , ("msg-param-fun-string", RemapEntry.plain "fun_string")
  , ("msg-param-profileImageURL", RemapEntry.plain "profile_image_url") ]

/-- `_COMMENT_REMAPPING` (`twitch.py` lines 214-225). -/
def commentRemapping : List (String × RemapEntry) :=
  [ ("_id", RemapEntry.plain "message_id")
  , ("created_at", RemapEntry.fn "timestamp" RemapFnId.parse_timestamp)
  , ("commenter", RemapEntry.fn "author" RemapFnId.parse_commenter)
  , ("content_offset_seconds", RemapEntry.plain "time_in_seconds")
  , ("source", RemapEntry.plain "source")
  , ("state", RemapEntry.plain "state")
  , ("message", RemapEntry.fn "message_info" RemapFnId.parse_message_info) ]

/-- `_IRC_REMAPPING` (`twitch.py` lines 326-416): the IRC tag table,
whose tail is the spliced-in `_MESSAGE_PARAM_REMAPPING`. -/
def ircRemapping : List (String × RemapEntry) :=
  [ ("ban-duration", RemapEntry.fn "ban_duration" RemapFnId.parse_int)
  , ("login", RemapEntry.plain "author_name")
  , ("target-msg-id", RemapEntry.plain "target_message_id")
  , ("emote-sets", RemapEntry.plain "emote_sets")
  , ("color", RemapEntry.plain "colour")
  , ("display-name", RemapEntry.plain "author_display_name")
  , ("user-id", RemapEntry.fn "author_id" RemapFnId.parse_int)
  , ("badge-info", RemapEntry.fn "author_badge_metadata" RemapFnId.parse_badges)
  , ("badges", RemapEntry.fn "author_badges" RemapFnId.parse_badges)
  , ("bits", RemapEntry.fn "bits" RemapFnId.parse_int)
  , ("id", RemapEntry.plain "message_id")
  , ("mod", RemapEntry.fn "is_moderator" RemapFnId.parse_bool)
  , ("room-id", RemapEntry.fn "channel_id" RemapFnId.parse_int)
  , ("tmi-sent-ts", RemapEntry.fn "timestamp" RemapFnId.multiply_by_1000)
  , ("subscriber", RemapEntry.fn "is_subscriber" RemapFnId.parse_bool)
  , ("turbo", RemapEntry.fn "is_turbo" RemapFnId.parse_bool)
  , ("client-nonce", RemapEntry.plain "client_nonce")
  , ("user-type", RemapEntry.plain "user_type")
  , ("reply-parent-msg-body", RemapEntry.fn "in_reply_to_message" RemapFnId.decode_pseudo_BNF)
  , ("reply-parent-user-id", RemapEntry.fn "in_reply_to_author_id" RemapFnId.parse_int)
  , ("reply-parent-msg-id", RemapEntry.plain "in_reply_to_message_id")
  , ("reply-parent-display-name", RemapEntry.plain "in_reply_to_author_display_name")
  , ("reply-parent-user-login", RemapEntry.plain "in_reply_to_author_name")
  , ("custom-reward-id", RemapEntry.plain "custom_reward_id")
  , ("emotes", RemapEntry.plain "emotes")
  , ("flags", RemapEntry.plain "flags")
  , ("emote-only", RemapEntry.fn "emote_only" RemapFnId.parse_bool)
  , ("followers-only", RemapEntry.fn "follower_only" RemapFnId.parse_int)
  , ("r9k", RemapEntry.fn "r9k_mode" RemapFnId.parse_bool)
  , ("slow", RemapEntry.fn "slow_mode" RemapFnId.parse_int)
  , ("subs-only", RemapEntry.fn "subscriber_only" RemapFnId.parse_bool)
  , ("rituals", RemapEntry.fn "rituals_enabled" RemapFnId.parse_bool)
  , ("system-msg", RemapEntry.plain "system_message")
  , ("number-of-viewers", RemapEntry.plain "number_of_viewers")
  , ("target-user-id", RemapEntry.fn "target_author_id" RemapFnId.parse_int) ]
  ++ messageParamRemapping

/-- `_ACTION_TYPE_REMAPPING` (`twitch.py` lines 436-450). -/
def actionTypeRemapping : List (String × String) :=
  [ ("CLEARCHAT", "clear_chat")
  , ("CLEARMSG", "delete_message")
  , ("GLOBALUSERSTATE", "successful_login")
  , ("PRIVMSG", "text_message")
  , ("ROOMSTATE", "room_state")
  , ("USERNOTICE", "user_notice")
  , ("USERSTATE", "user_state")
  , ("HOSTTARGET", "host_target")
  , ("NOTICE", "notice")
  , ("RECONNECT", "reconnect") ]

/-- `_MESSAGE_GROUP_REMAPPINGS` (`twitch.py` lines 453-604): per message
group, the mapping from raw `msg-id` values to canonical message types. -/
def messageGroupRemappings : List (String × List (String × String)) :=
  [ ("messages",
      [ ("highlighted-message", "highlighted_message")
      , ("skip-subs-mode-message", "send_message_in_subscriber_only_mode") ])
  , ("bits",
      [ ("bitsbadgetier", "bits_badge_tier") ])
  , ("subscriptions",
      [ ("sub", "subscription")
      , ("resub", "resubscription")
      , ("subgift", "subscription_gift")
      , ("anonsubgift", "anonymous_subscription_gift")
      , ("anonsubmysterygift", "anonymous_mystery_subscription_gift")
      , ("submysterygift", "mystery_subscription_gift")
      , ("extendsub", "extend_subscription")
      , ("standardpayforward", "standard_pay_forward")
      , ("communitypayforward", "community_pay_forward")
      , ("primecommunitygiftreceived", "prime_community_gift_received") ])
  , ("upgrades",
      [ ("primepaidupgrade", "prime_paid_upgrade")
      , ("giftpaidupgrade", "gift_paid_upgrade")
      , ("rewardgift", "reward_gift")
      , ("anongiftpaidupgrade", "anonymous_gift_paid_upgrade") ])
  , ("raids",
      [ ("raid", "raid")
      , ("unraid", "unraid") ])
  , ("hosts",
      [ ("host_on", "start_host")
      , ("host_off", "end_host")
      , ("bad_host_hosting", "bad_host_hosting")
      , ("bad_host_rate_exceeded", "bad_host_rate_exceeded")
      , ("bad_host_error", "bad_host_error")
      , ("hosts_remaining", "hosts_remaining")
      , ("not_hosting", "not_hosting")
      , ("host_target_went_offline", "host_target_went_offline") ])
  , ("rituals",
      [ ("ritual", "ritual") ])
  , ("room_states",
      [ ("slow_on", "enable_slow_mode")
      , ("slow_off", "disable_slow_mode")
      , ("already_slow_on", "slow_mode_already_on")
      , ("already_slow_off", "slow_mode_already_off")
      , ("subs_on", "enable_subscriber_only_mode")
      , ("subs_off", "disable_subscriber_only_mode")
      , ("already_subs_on", "sub_mode_already_on")
      , ("already_subs_off", "sub_mode_already_off")
      , ("emote_only_on", "enable_emote_only_mode")
      , ("emote_only_off", "disable_emote_only_mode")
      , ("already_emote_only_on", "emote_only_already_on")
      , ("already_emote_only_off", "emote_only_already_off")
      , ("r9k_on", "enable_r9k_mode")
      , ("r9k_off", "disable_r9k_mode")
      , ("already_r9k_on", "r9k_mode_already_on")
      , ("already_r9k_off", "r9k_mode_already_off")
      , ("followers_on", "enable_follower_only_mode")
      , ("followers_on_zero", "enable_follower_only_mode")
      , ("followers_off", "disable_follower_only_mode")
      , ("already_followers_on", "follower_only_mode_already_on")
      , ("already_followers_on_zero", "follower_only_mode_already_on")
      , ("already_followers_off", "follower_only_mode_already_off") ])
  , ("deleted_messages",
      [ ("msg_banned", "banned_message")
      , ("bad_delete_message_error", "bad_delete_message_error")
      , ("bad_delete_message_broadcaster", "bad_delete_message_broadcaster")
      , ("bad_delete_message_mod", "bad_delete_message_mod")
      , ("delete_message_success", "delete_message_success") ])
  , ("bans",
      [ ("already_banned", "already_banned")
      , ("bad_ban_self", "bad_ban_self")
      , ("bad_ban_broadcaster", "bad_ban_broadcaster")
      , ("bad_ban_admin", "bad_ban_admin")
      , ("bad_ban_global_mod", "bad_ban_global_mod")
      , ("bad_ban_staff", "bad_ban_staff")
      , ("ban_success", "ban_success")
      , ("bad_unban_no_ban", "bad_unban_no_ban")
      , ("unban_success", "unban_success")
      , ("msg_channel_suspended", "channel_suspended_message")
      , ("timeout_success", "timeout_success")
      , ("bad_timeout_self", "bad_timeout_self")
      , ("bad_timeout_broadcaster", "bad_timeout_broadcaster")
      , ("bad_timeout_mod", "bad_timeout_mod")
      , ("bad_timeout_admin", "bad_timeout_admin")
      , ("bad_timeout_global_mod", "bad_timeout_global_mod")
      , ("bad_timeout_staff", "bad_timeout_staff") ])
  , ("mods",
      [ ("bad_mod_banned", "bad_mod_banned")
      , ("bad_mod_mod", "bad_mod_mod")
      , ("mod_success", "mod_success")
      , ("bad_unmod_mod", "bad_unmod_mod")
      , ("unmod_success", "unmod_success")
      , ("no_mods", "no_mods")
      , ("room_mods", "room_mods") ])
  , ("colours",
      [ ("turbo_only_color", "turbo_only_colour")
      , ("color_changed", "colour_changed") ])
  , ("commercials",
      [ ("bad_commercial_error", "bad_commercial_error")
      , ("commercial_success", "commercial_success") ])
  , ("vips",
      [ ("bad_vip_grantee_banned", "bad_vip_grantee_banned")
      , ("bad_vip_grantee_already_vip", "bad_vip_grantee_already_vip")
      , ("vip_success", "vip_success")
      , ("bad_unvip_grantee_not_vip", "bad_unvip_grantee_not_vip")
      , ("unvip_success", "unvip_success")
      , ("no_vips", "no_vips")
      , ("vips_success", "vips_success") ])
  , ("other",
      [ ("cmds_available", "cmds_available")
      , ("unrecognized_cmd", "unrecognized_cmd")
      , ("no_permission", "no_permission")
      , ("msg_ratelimit", "rate_limit_reached_message") ]) ]

/-- The static part of `_MESSAGE_GROUPS` (`twitch.py` lines 606-634),
before the class-body loop extends it. -/
def messageGroupsStatic : List (String × List String) :=
  [ ("messages", ["text_message"])
  , ("bans", ["ban_user"])
  , ("deleted_messages", ["delete_message"])
  , ("hosts", ["host_target"])
  , ("room_states", ["room_state"])
  , ("user_states", ["user_state"])
  , ("notices", ["user_notice", "notice", "successful_login"])
  , ("other", ["clear_chat", "reconnect"]) ]

/-- `_MESSAGE_TYPE_REMAPPING` (`twitch.py` lines 636-639): the union of
every group's `msg-id` table, in iteration order. -/
def messageTypeRemapping : List (String × String) :=
  (messageGroupRemappings.map (fun g => g.2)).flatten

/-- Append-or-extend used by the class-body loop building
`_MESSAGE_GROUPS`. -/
def groupsExtend (gs : List (String × List String)) (k : String) (vs : List String) :
    List (String × List String) :=
  match gs with
  | [] => [(k, vs)]
  | (k1, l) :: rest =>
    if k1 = k then (k1, l ++ vs) :: rest else (k1, l) :: groupsExtend rest k vs

/-- `_MESSAGE_GROUPS` after the class-body loop (`twitch.py` lines
636-643): each group of `_MESSAGE_GROUP_REMAPPINGS` contributes its
canonical message types, appended to the static entry when the group
already exists. -/
def messageGroups : List (String × List String) :=
  messageGroupRemappings.foldl
    (fun gs g => groupsExtend gs g.1 (g.2.map (fun kv => kv.2)))
    messageGroupsStatic

/-! ### The IRC line parser `_parse_irc_item` (`twitch.py` lines 1135-1228) -/

/-- `_set_message_type` (`twitch.py` lines 1117-1133): a known raw message
type maps to its canonical name; an unknown one is logged for diagnosis and
left unchanged. -/
def setMessageType (info : Info) (orig : Val) : Info :=
  match orig with
  | Val.vstr s =>
    match messageTypeRemapping.lookup s with
    | Option.some n => dset info "message_type" (Val.vstr n)
    | Option.none => info
  | _ => info

/-- Python `next((x for x in l if x.get('name') == 'subscriber'), None)`
over a badge-list value: the first subscriber badge, `None` when there is
none; iterating a non-list raises as Python would (an empty string or
dictionary iterates to nothing). -/
def findSubBadgeInList : List Val → Except PyErr (Option Info)
  | [] => Except.ok Option.none
  | Val.vobj b :: rest =>
    if valEqStr (dgetN b "name") "subscriber" then Except.ok (Option.some b)
    else findSubBadgeInList rest
  | _ :: _ => Except.error PyErr.attributeError

/-- The subscriber-badge search on the raw value stored for the badge
fields. -/
def findSubscriberBadge (v : Val) : Except PyErr (Option Info) :=
  match v with
  | Val.vlist l => findSubBadgeInList l
  | Val.vstr s => if s = "" then Except.ok Option.none else Except.error PyErr.attributeError
  | Val.vobj o => if o.isEmpty then Except.ok Option.none else Except.error PyErr.attributeError
  | _ => Except.error PyErr.typeError

/-- In-place mutation of the first subscriber badge of the author badge
list (the source mutates the aliased badge dictionary). -/
def replaceFirstSubscriber (nb : Info) : List Val → List Val
  | [] => []
  | Val.vobj b :: rest =>
    if valEqStr (dgetN b "name") "subscriber" then Val.vobj nb :: rest
    else Val.vobj b :: replaceFirstSubscriber nb rest
  | x :: rest => x :: replaceFirstSubscriber nb rest

/-- Python `v != n` against an integer literal (booleans compare as their
integer value, every other non-integer type is unequal). -/
def pyNeInt (v : Val) (n : Int) : Bool :=
  match v with
  | Val.vint m => m != n
  | Val.vbool b => (if b then (1 : Int) else 0) != n
  | _ => true

/-- Python `v > 0` (raises a `TypeError` on non-numeric values). -/
def pyGtZero : Val → Except PyErr Bool
  | Val.vint n => Except.ok (n > 0)
  | Val.vbool b => Except.ok b
  | _ => Except.error PyErr.typeError

/-- `_parse_irc_item` (`twitch.py` lines 1135-1228) on the three captured
groups of a message match: split the tag string on `;` and each item on its
first `=` (a bare key gets the value `True`), remap every pair through the
IRC table keeping unknown keys with dashes underscore-normalized; surface
the body with the action marker stripped; merge subscriber badge metadata;
derive the lowercase author name; assemble the `in_reply_to` (with nested
`author`) and `author` sub-objects; resolve the action type and message
type; re-derive the ban fields on a purge with a body; and encode the
follower-only and slow-mode room states. -/
def parseIrcItem (g1 g2 g3 : List Char) : Except PyErr Info := do
  let info ← (mySplit ';' g1).foldlM
    (fun info item =>
      match splitFirstChar '=' item with
      | Option.some (k, v) =>
        remap applyRemapFn ircRemapping info (String.mk k) (Val.vstr (String.mk v)) true true
      | Option.none =>
        remap applyRemapFn ircRemapping info (String.mk item) (Val.vbool true) true true)
    ([] : Info)
  let info := if g3.isEmpty then info
    else dset info "message" (Val.vstr (String.mk (stripPrefixIfPresent actionMarker g3)))
  let (bm, info) := dpop info "author_badge_metadata"
  let badgeMeta := bm.getD (Val.vlist [])
  let badgeInfoV := (dget info "author_badges").getD (Val.vlist [])
  let subBadge ← findSubscriberBadge badgeInfoV
  let subMeta ← findSubscriberBadge badgeMeta
  let info ←
    match subBadge, subMeta with
    | Option.some sb, Option.some sm => do
      let months ← match dget sm "version" with
        | Option.some v => Except.ok v
        | Option.none => Except.error PyErr.keyError
      let sb2 ← setSubscriberBadgeInfo sb months
      match badgeInfoV with
      | Val.vlist l => Except.ok (dset info "author_badges" (Val.vlist (replaceFirstSubscriber sb2 l)))
      | _ => Except.ok info
    | _, _ => Except.ok info
  let info ←
    match dget info "author_display_name" with
    | Option.some v =>
      if pyTruthy v then
        match v with
        | Val.vstr s => Except.ok (dset info "author_name" (Val.vstr (String.mk (s.data.map Char.toLower))))
        | _ => Except.error PyErr.attributeError
      else Except.ok info
    | Option.none => Except.ok info
  let (info, ir) := moveToDict info "in_reply_to"
  let (ir2, _) := moveToDict ir "author"
  let info := if ir.isEmpty then info else dset info "in_reply_to" (Val.vobj ir2)
  let (info, _) := moveToDict info "author"
  let info :=
    if g2.isEmpty then info
    else
      match actionTypeRemapping.lookup (String.mk g2) with
      | Option.some n => dset info "action_type" (Val.vstr n)
      | Option.none => dset info "action_type" (Val.vstr (String.mk g2))
  let info ←
    match dget info "message_type" with
    | Option.some mt =>
      if pyTruthy mt then Except.ok (setMessageType info mt)
      else
        match dget info "action_type" with
        | Option.some a => Except.ok (dset info "message_type" a)
        | Option.none => Except.error PyErr.keyError
    | Option.none =>
      match dget info "action_type" with
      | Option.some a => Except.ok (dset info "message_type" a)
      | Option.none => Except.error PyErr.keyError
  let info :=
    if String.mk g2 = "CLEARCHAT" ∧ ¬ g3.isEmpty then
      let info := dset info "message_type" (Val.vstr "ban_user")
      let info := dset info "ban_type"
        (Val.vstr (if pyTruthy ((dget info "ban_duration").getD Val.vnone) then "timeout"
          else "permanent"))
      let (mv, info) := dpop info "message"
      dset info "banned_user" (mv.getD (Val.vstr ""))
    else info
  let info ←
    match dget info "follower_only" with
    | Option.some fo =>
      if pyTruthy fo then do
        let info := dset info "follower_only" (Val.vbool (pyNeInt fo (-1)))
        let gt ← pyGtZero fo
        if gt then Except.ok (dset info "minutes_to_follow_before_chatting" fo)
        else Except.ok info
      else Except.ok info
    | Option.none => Except.ok info
  let info :=
    match dget info "slow_mode" with
    | Option.some sm =>
      match sm with
      | Val.vnone => info
      | _ =>
        if pyNeInt sm 0 then dset (dset info "slow_mode" (Val.vbool true)) "seconds_to_wait" sm
        else dset info "slow_mode" (Val.vbool false)
    | Option.none => info
  Except.ok info

/-! ### Claims C3, C4, C6, C8: the IRC parser -/

/-- Field lookup on a parse outcome (`none` when parsing raised). -/
def eventField (e : Except PyErr Info) (k : String) : Option Val :=
  match e with
  | Except.ok i => dget i k
  | Except.error _ => Option.none

/-- Field lookup inside the `author` sub-object of a parse outcome. -/
def eventAuthorField (e : Except PyErr Info) (k : String) : Option Val :=
  match eventField e "author" with
  | Option.some (Val.vobj a) => dget a k
  | _ => Option.none

/-- Whether the IRC parser completed without raising. -/
def ircParseOk (g1 g2 g3 : List Char) : Bool :=
  match parseIrcItem g1 g2 g3 with
  | Except.ok _ => true
  | Except.error _ => false

/-- A field of the event built by the IRC parser. -/
def ircParseField (g1 g2 g3 : List Char) (k : String) : Option Val :=
  eventField (parseIrcItem g1 g2 g3) k

/-- Splitting at a separator that does not occur returns the whole text as
the single item. -/
theorem mySplit_not_mem (c : Char) (l : List Char) (h : c ∉ l) : mySplit c l = [l] := by
  induction l with
  | nil => rfl
  | cons a rest ih =>
    have ha : ¬ a = c := fun e => h (e ▸ List.mem_cons_self a rest)
    have hrest : c ∉ rest := fun hm => h (List.mem_cons_of_mem a hm)
    simp [mySplit, ih hrest, ha]

/-- Splitting at the first occurrence of a separator. -/
theorem splitFirstChar_eq (c : Char) (pre post : List Char) (h : c ∉ pre) :
    splitFirstChar c (pre ++ c :: post) = Option.some (pre, post) := by
  induction pre with
  | nil => simp [splitFirstChar]
  | cons a rest ih =>
    have ha : ¬ a = c := fun e => h (e ▸ List.mem_cons_self a rest)
    have hrest : c ∉ rest := fun hm => h (List.mem_cons_of_mem a hm)
    simp [splitFirstChar, ha, ih hrest]

/-- ROOMSTATE tag string with followers-only value 0. -/
def c3TagsZero : List Char := "followers-only=0;room-id=1;slow=0".data

/-- ROOMSTATE tag string with followers-only value -1. -/
def c3TagsMinus : List Char := "followers-only=-1;room-id=1;slow=0".data

/-- ROOMSTATE tag string with followers-only value 5. -/
def c3TagsFive : List Char := "followers-only=5;room-id=1;slow=0".data

/-- C3 is right about the code's intent but the code diverges at value 0:
the guard `if follower_only:` is false for the integer 0, so the block that
turns the raw integer into the enabled flag is skipped and the event keeps
the raw `0` instead of `true`.  Values -1 and 5 behave as the claim
states. -/
theorem c3_follower_only_eval :
    (ircParseOk c3TagsZero "ROOMSTATE".data [] = true
      ∧ ircParseField c3TagsZero "ROOMSTATE".data [] "follower_only"
          = Option.some (Val.vint 0)
      ∧ ircParseField c3TagsZero "ROOMSTATE".data [] "minutes_to_follow_before_chatting"
          = Option.none)
    ∧ (ircParseField c3TagsMinus "ROOMSTATE".data [] "follower_only"
          = Option.some (Val.vbool false)
      ∧ ircParseField c3TagsMinus "ROOMSTATE".data [] "minutes_to_follow_before_chatting"
          = Option.none)
    ∧ (ircParseField c3TagsFive "ROOMSTATE".data [] "follower_only"
          = Option.some (Val.vbool true)
      ∧ ircParseField c3TagsFive "ROOMSTATE".data [] "minutes_to_follow_before_chatting"
          = Option.some (Val.vint 5)) := by
  exact ⟨⟨rfl, rfl, rfl⟩, ⟨rfl, rfl⟩, ⟨rfl, rfl⟩⟩

/-- PRIVMSG tag string with a non-numeric timestamp. -/
def c4TagsBadTs : List Char := "tmi-sent-ts=abc;mod=0".data

/-- ROOMSTATE tag string with a non-numeric followers-only value. -/
def c4TagsBadFollower : List Char := "followers-only=abc;room-id=1".data

/-- C4 is right about the contract but the code diverges: the
`multiply_by_1000` transform is `int_or_none(x) * 1000`, and multiplying
the `None` of a failed parse raises a `TypeError` that propagates out of
`_parse_irc_item`, so a line with a non-numeric `tmi-sent-ts` aborts
message construction.  For a transform that is just `int_or_none`
(`parse_int`, here on followers-only) the failure is contained and the
field degrades to the null value as the claim states. -/
theorem c4_transform_failure_eval :
    parseIrcItem c4TagsBadTs "PRIVMSG".data "hi".data = Except.error PyErr.typeError
    ∧ ircParseOk c4TagsBadFollower "ROOMSTATE".data [] = true
    ∧ ircParseField c4TagsBadFollower "ROOMSTATE".data [] "follower_only"
        = Option.some Val.vnone := by
  exact ⟨rfl, rfl, rfl⟩

/-- CLEARCHAT tag string carrying a ban-duration tag with value 0. -/
def c6TagsZeroDur : List Char := "ban-duration=0;room-id=1".data

/-- C6 is false on the code as stated: a purge line that carries a message
body and a ban-duration tag whose value is 0 yields `ban_type`
`permanent`, because the code derives the ban type from the truthiness of
the parsed duration, not from the presence of the tag. -/
theorem c6_counterexample :
    ircParseOk c6TagsZeroDur "CLEARCHAT".data "baduser".data = true
    ∧ ircParseField c6TagsZeroDur "CLEARCHAT".data "baduser".data "ban_duration"
        = Option.some (Val.vint 0)
    ∧ ircParseField c6TagsZeroDur "CLEARCHAT".data "baduser".data "message_type"
        = Option.some (Val.vstr "ban_user")
    ∧ ircParseField c6TagsZeroDur "CLEARCHAT".data "baduser".data "ban_type"
        = Option.some (Val.vstr "permanent") := by
  exact ⟨rfl, rfl, rfl, rfl⟩

/-- C6, amended.  On a purge (`CLEARCHAT`) line with a message body the
event always becomes `ban_user` with the body as the banned user; the ban
type is derived from the truthiness of the parsed duration value, not from
the presence of the tag: `timeout` exactly when the `ban-duration` value
parses to a nonzero integer, `permanent` when the tag is absent, zero or
unparseable. -/
theorem c6_ban_derivation_amended :
    (∀ (d b : List Char), ';' ∉ d → b ≠ [] →
      ircParseField ("ban-duration=".data ++ d) "CLEARCHAT".data b "message_type"
          = Option.some (Val.vstr "ban_user")
        ∧ ircParseField ("ban-duration=".data ++ d) "CLEARCHAT".data b "banned_user"
          = Option.some (Val.vstr (String.mk (stripPrefixIfPresent actionMarker b)))
        ∧ ircParseField ("ban-duration=".data ++ d) "CLEARCHAT".data b "ban_type"
          = Option.some (Val.vstr (if pyTruthy (optIntToVal (strToInt? (String.mk d)))
              then "timeout" else "permanent")))
    ∧ (∀ (b : List Char), b ≠ [] →
      ircParseField "room-id=1".data "CLEARCHAT".data b "message_type"
          = Option.some (Val.vstr "ban_user")
        ∧ ircParseField "room-id=1".data "CLEARCHAT".data b "banned_user"
          = Option.some (Val.vstr (String.mk (stripPrefixIfPresent actionMarker b)))
        ∧ ircParseField "room-id=1".data "CLEARCHAT".data b "ban_type"
          = Option.some (Val.vstr "permanent")) := by
  constructor
  · intro d b hd hb
    have hnm : ';' ∉ "ban-duration=".data ++ d := by
      intro h
      rcases List.mem_append.mp h with h1 | h2
      · revert h1; decide
      · exact hd h2
    have hsplit : mySplit ';' ("ban-duration=".data ++ d) = ["ban-duration=".data ++ d] :=
      mySplit_not_mem ';' _ hnm
    have hfirst : splitFirstChar '=' ("ban-duration=".data ++ d)
        = Option.some ("ban-duration".data, d) :=
      splitFirstChar_eq '=' "ban-duration".data d (by decide)
    cases b with
    | nil => exact absurd rfl hb
    | cons hd0 tl =>
      have hmain : parseIrcItem ("ban-duration=".data ++ d) "CLEARCHAT".data (hd0 :: tl)
          = Except.ok
            [ ("ban_duration", optIntToVal (strToInt? (String.mk d)))
            , ("action_type", Val.vstr "clear_chat")
            , ("message_type", Val.vstr "ban_user")
            , ("ban_type", Val.vstr (if pyTruthy (optIntToVal (strToInt? (String.mk d)))
                then "timeout" else "permanent"))
            , ("banned_user", Val.vstr (String.mk (stripPrefixIfPresent actionMarker (hd0 :: tl)))) ] := by
        unfold parseIrcItem
        rw [hsplit]
        simp only [List.foldlM_cons, List.foldlM_nil, hfirst]
        rfl
      refine ⟨?_, ?_, ?_⟩ <;>
        · unfold ircParseField eventField
          rw [hmain]
          simp [dget]
  · intro b hb
    cases b with
    | nil => exact absurd rfl hb
    | cons hd0 tl =>
      have hmain : parseIrcItem "room-id=1".data "CLEARCHAT".data (hd0 :: tl)
          = Except.ok
            [ ("channel_id", Val.vint 1)
            , ("action_type", Val.vstr "clear_chat")
            , ("message_type", Val.vstr "ban_user")
            , ("ban_type", Val.vstr "permanent")
            , ("banned_user", Val.vstr (String.mk (stripPrefixIfPresent actionMarker (hd0 :: tl)))) ] := by
        rfl
      refine ⟨?_, ?_, ?_⟩ <;>
        · unfold ircParseField eventField
          rw [hmain]
          simp [dget]

theorem c6_amended_witness :
    ircParseField ("ban-duration=".data ++ "600".data) "CLEARCHAT".data "user1".data "message_type"
      = Option.some (Val.vstr "ban_user")
    ∧ ircParseField "room-id=1".data "CLEARCHAT".data "user2".data "ban_type"
      = Option.some (Val.vstr "permanent") :=
  ⟨(c6_ban_derivation_amended.1 "600".data "user1".data (by decide) (by decide)).1,
   (c6_ban_derivation_amended.2 "user2".data (by decide)).2.2⟩

/-- The literal PRIVMSG line of the end-to-end scenario. -/
def c8Line : List Char :=
  ("@badge-info=;badges=subscriber/6;color=#FF69B4;display-name=sumz5;id=abc;mod=0;"
    ++ "room-id=1;subscriber=1;tmi-sent-ts=1607447245754;turbo=0;user-id=611966876 "
    ++ ":sumz5!sumz5@sumz5.tmi.twitch.tv PRIVMSG #chan :hello").data

/-- The event built from the first (and only) match of a raw line. -/
def parseFirstIrcMatch (l : List Char) : Except PyErr Info :=
  match finditer l with
  | m :: _ => parseIrcItem m.g1 m.g2 m.g3
  | [] => Except.error PyErr.valueError

/-- C8 is false on the code in one field: the line yields exactly one
event, but the colour lives on the event top-level (the `color` tag maps to
the bare canonical key `colour`, which the author-assembly step does not
relocate, since only `author_`-prefixed keys move into the `author`
sub-object); the author object of the event has no colour at all. -/
theorem c8_counterexample :
    (finditer c8Line).length = 1
    ∧ eventAuthorField (parseFirstIrcMatch c8Line) "colour" = Option.none
    ∧ eventField (parseFirstIrcMatch c8Line) "colour" = Option.some (Val.vstr "#FF69B4") := by
  refine ⟨rfl, rfl, rfl⟩

/-- C8, amended.  Feeding the live message parser the literal line yields
exactly one event with message type `text_message`, author display name
`sumz5`, message `hello`, timestamp 1607447245754000, and the colour
`#FF69B4` as the top-level `colour` field of the event rather than under
`author`. -/
theorem c8_end_to_end_amended :
    (finditer c8Line).length = 1
    ∧ eventField (parseFirstIrcMatch c8Line) "message_type"
        = Option.some (Val.vstr "text_message")
    ∧ eventAuthorField (parseFirstIrcMatch c8Line) "display_name"
        = Option.some (Val.vstr "sumz5")
    ∧ eventField (parseFirstIrcMatch c8Line) "message" = Option.some (Val.vstr "hello")
    ∧ eventField (parseFirstIrcMatch c8Line) "timestamp"
        = Option.some (Val.vint 1607447245754000)
    ∧ eventField (parseFirstIrcMatch c8Line) "colour" = Option.some (Val.vstr "#FF69B4") := by
  refine ⟨rfl, rfl, rfl, rfl, rfl, rfl⟩

/-! ### Part 3: the replay client (`twitch.py` lines 653-691, 832-1003) -/

/-- Modelled from the spec (section 4.5): the missing
`common.ChatDownloader.must_add_item`.  Pass unconditionally when both
allow-lists are empty; otherwise pass when a literal `all` occurs in either
list, when the event's message type is listed directly, or when it belongs
to a listed group. -/
def mustAddItem (item : Info) (groups : List (String × List String))
    (groupsToAdd typesToAdd : List String) : Bool :=
  if groupsToAdd.isEmpty && typesToAdd.isEmpty then true
  else if groupsToAdd.contains "all" || typesToAdd.contains "all" then true
  else
    match dget item "message_type" with
    | Option.some (Val.vstr s) =>
      typesToAdd.contains s
        || groupsToAdd.any (fun g => ((groups.lookup g).getD []).contains s)
    | _ => false

/-- `_parse_item` (`twitch.py` lines 653-691): remap every key of the raw
comment through the comment table; subtract the clip offset from the
stream-relative time and attach the human-readable rendering; unpack the
message info (body, author colour, badges) into the event; remap the
user-notice parameters (the unguarded `message_info.pop` raises when the
comment has no message object); default the message type to `text_message`;
and drop the profile image url. -/
def parseItem (item : List (String × Val)) (off : Int) : Except PyErr Info := do
  let info ← item.foldlM
    (fun info kv => remap applyRemapFn commentRemapping info kv.1 kv.2 false false)
    ([] : Info)
  let info ←
    match dget info "time_in_seconds" with
    | Option.some v => do
      let n ← match v with
        | Val.vint n => Except.ok n
        | _ => Except.error PyErr.typeError
      let info := dset info "time_in_seconds" (Val.vint (n - off))
      Except.ok (dset info "time_text" (Val.vstr (secondsToTime (n - off))))
    | Option.none => Except.ok info
  let (miOpt, info) := dpop info "message_info"
  let info ←
    if pyTruthy (miOpt.getD Val.vnone) then
      match miOpt with
      | Option.some (Val.vobj m) => do
        let info := dset info "message" (dgetN m "message")
        let info ←
          match dget info "author" with
          | Option.some (Val.vobj a) =>
            Except.ok (dset info "author" (Val.vobj (dset a "colour" (dgetN m "colour"))))
          | Option.some _ => Except.error PyErr.typeError
          | Option.none => Except.error PyErr.keyError
        let badges := dgetN m "badges"
        if pyTruthy badges then
          match dget info "author" with
          | Option.some (Val.vobj a) =>
            Except.ok (dset info "author" (Val.vobj (dset a "badges" badges)))
          | _ => Except.error PyErr.typeError
        else Except.ok info
      | _ => Except.error PyErr.typeError
    else Except.ok info
  let unp ←
    match miOpt with
    | Option.some (Val.vobj m) =>
      match dget m "user_notice_params" with
      | Option.some v => Except.ok v
      | Option.none => Except.ok (Val.vobj [])
    | _ => Except.error PyErr.attributeError
  let info ←
    match unp with
    | Val.vobj ps =>
      ps.foldlM
        (fun info kv => remap applyRemapFn messageParamRemapping info kv.1 kv.2 true false)
        info
    | Val.vstr s => if s = "" then Except.ok info else Except.error PyErr.typeError
    | _ => Except.error PyErr.typeError
  let info :=
    match dget info "message_type" with
    | Option.some mt =>
      if pyTruthy mt then setMessageType info mt
      else dset info "message_type" (Val.vstr "text_message")
    | Option.none => dset info "message_type" (Val.vstr "text_message")
  Except.ok (dpop info "profile_image_url").2

/-- The failures the replay client can surface. -/
inductive SiteFail where
  | py : PyErr → SiteFail
  | twitchError : Val → SiteFail
  | noChatReplay : SiteFail
deriving Repr

/-- One backend comment page: the comment records, the `_next` cursor and
the optional error payload with its message. -/
structure TwPage where
  comments : List Val
  nextCursor : Option String
  errorVal : Val
  errorMessage : Val

/-- `data.get('time_in_seconds', 0)`, the comparison value of the time
window (the parser guarantees an integer whenever the field is present). -/
def timeOf (data : Info) : Int :=
  match dget data "time_in_seconds" with
  | Option.some (Val.vint n) => n
  | _ => 0

/-- Outcome of processing the comments of one page: every comment
processed (pagination continues), the early `return` of the time window
hit, or an exception propagated; each carries the events yielded. -/
inductive LoopRes where
  | cont : List Info → LoopRes
  | halt : List Info → LoopRes
  | fail : List Info → SiteFail → LoopRes
deriving Repr

/-- Prepend a yielded event to an outcome. -/
def consYield (d : Info) : LoopRes → LoopRes
  | LoopRes.cont ys => LoopRes.cont (d :: ys)
  | LoopRes.halt ys => LoopRes.halt (d :: ys)
  | LoopRes.fail ys e => LoopRes.fail (d :: ys) e

/-- The yielded events of an outcome. -/
def LoopRes.yields : LoopRes → List Info
  | LoopRes.cont ys => ys
  | LoopRes.halt ys => ys
  | LoopRes.fail ys _ => ys

/-- The per-comment body of the pagination loop (`twitch.py` lines
891-926): parse the record, skip it when its time is before the requested
start (the start time defaults to 0 and is never absent), stop the entire
retrieval at the first record whose time exceeds the requested end, filter
by the caller's allow-lists, and otherwise yield. -/
def processComments (off startT : Int) (endT : Option Int) (gs ts : List String) :
    List Val → LoopRes
  | [] => LoopRes.cont []
  | c :: cs =>
    match c with
    | Val.vobj o =>
      match parseItem o off with
      | Except.error e => LoopRes.fail [] (SiteFail.py e)
      | Except.ok data =>
        if timeOf data < startT then processComments off startT endT gs ts cs
        else if (match endT with
          | Option.some e => decide (timeOf data > e)
          | Option.none => false) then LoopRes.halt []
        else if mustAddItem data messageGroups gs ts then
          consYield data (processComments off startT endT gs ts cs)
        else processComments off startT endT gs ts cs
    | _ => LoopRes.fail [] (SiteFail.py PyErr.typeError)

/-- The pagination loop of `_get_chat_messages_by_vod_id` (`twitch.py`
lines 870-931) over the sequence of backend pages: a well-formed page with
an error payload raises the platform failure; otherwise its comments are
processed, and pagination continues exactly when the page carries a
truthy `_next` cursor and the time window has not closed.  Returns the
yielded events, the number of pages fetched, and the failure if any (the
retry/timeout primitives around the fetch live in the missing
`common.py`/`utils.py` and do not affect which records are yielded). -/
def processPages (off startT : Int) (endT : Option Int) (gs ts : List String) :
    List TwPage → List Info × Nat × Option SiteFail
  | [] => ([], 0, Option.none)
  | p :: rest =>
    if pyTruthy p.errorVal then ([], 1, Option.some (SiteFail.twitchError p.errorMessage))
    else
      match processComments off startT endT gs ts p.comments with
      | LoopRes.fail ys e => (ys, 1, Option.some e)
      | LoopRes.halt ys => (ys, 1, Option.none)
      | LoopRes.cont ys =>
        match p.nextCursor with
        | Option.none => (ys, 1, Option.none)
        | Option.some cur =>
          if cur = "" then (ys, 1, Option.none)
          else
            let (ys2, n, f) := processPages off startT endT gs ts rest
            (ys ++ ys2, n + 1, f)

/-- Yields of a prepended outcome. -/
theorem consYield_yields (d : Info) (r : LoopRes) :
    (consYield d r).yields = d :: r.yields := by
  cases r <;> rfl

/-- Every event yielded while processing one page's comments lies in the
requested time window. -/
theorem processComments_window_mem (off startT : Int) (endT : Option Int)
    (gs ts : List String) (l : List Val) (d : Info)
    (hd : d ∈ (processComments off startT endT gs ts l).yields) :
    startT ≤ timeOf d ∧ ∀ e, endT = Option.some e → timeOf d ≤ e := by
  induction l with
  | nil => simp [processComments, LoopRes.yields] at hd
  | cons c cs ih =>
    cases c with
    | vobj o =>
      rw [processComments] at hd
      cases hp : parseItem o off with
      | error err => rw [hp] at hd; simp [LoopRes.yields] at hd
      | ok data =>
        rw [hp] at hd
        dsimp only at hd
        by_cases h1 : timeOf data < startT
        · rw [if_pos h1] at hd; exact ih hd
        · rw [if_neg h1] at hd
          cases hcond : (match endT with
            | Option.some e => decide (timeOf data > e)
            | Option.none => false) with
          | true => rw [if_pos hcond] at hd; simp [LoopRes.yields] at hd
          | false =>
            rw [if_neg (by simp [hcond])] at hd
            by_cases h3 : mustAddItem data messageGroups gs ts = true
            · rw [if_pos h3, consYield_yields] at hd
              rcases List.mem_cons.mp hd with heq | hmem
              · subst heq
                refine ⟨Int.not_lt.mp h1, ?_⟩
                intro e he
                subst he
                simp only [] at hcond
                exact Int.not_lt.mp (by simpa using hcond)
              · exact ih hmem
            · rw [if_neg h3] at hd; exact ih hd
    | vnone => simp [processComments, LoopRes.yields] at hd
    | vbool b => simp [processComments, LoopRes.yields] at hd
    | vint n => simp [processComments, LoopRes.yields] at hd
    | vstr s => simp [processComments, LoopRes.yields] at hd
    | vlist xs => simp [processComments, LoopRes.yields] at hd

/-- Every event yielded by the pagination loop lies in the requested time
window. -/
theorem processPages_window_mem (off startT : Int) (endT : Option Int)
    (gs ts : List String) (pages : List TwPage) (d : Info)
    (hd : d ∈ (processPages off startT endT gs ts pages).1) :
    startT ≤ timeOf d ∧ ∀ e, endT = Option.some e → timeOf d ≤ e := by
  induction pages with
  | nil => simp [processPages] at hd
  | cons p rest ih =>
    cases he : pyTruthy p.errorVal with
    | true => simp [processPages, he] at hd
    | false =>
      cases hc : processComments off startT endT gs ts p.comments with
      | fail ys err =>
        simp [processPages, he, hc] at hd
        exact processComments_window_mem off startT endT gs ts p.comments d
          (by rw [hc]; exact hd)
      | halt ys =>
        simp [processPages, he, hc] at hd
        exact processComments_window_mem off startT endT gs ts p.comments d
          (by rw [hc]; exact hd)
      | cont ys =>
        cases hnx : p.nextCursor with
        | none =>
          simp [processPages, he, hc, hnx] at hd
          exact processComments_window_mem off startT endT gs ts p.comments d
            (by rw [hc]; exact hd)
        | some cur =>
          by_cases hcur : cur = ""
          · simp [processPages, he, hc, hnx, hcur] at hd
            exact processComments_window_mem off startT endT gs ts p.comments d
              (by rw [hc]; exact hd)
          · simp [processPages, he, hc, hnx, hcur] at hd
            rcases hd with h | h
            · exact processComments_window_mem off startT endT gs ts p.comments d
                (by rw [hc]; exact h)
            · exact ih h

/-- C5, confirmed.  Every yielded event of a replay retrieval satisfies
S ≤ time_in_seconds and, when an end time E is given, time_in_seconds ≤ E;
a record whose time is below S is skipped (processing continues as if it
were absent); the first record whose time exceeds E halts the comment loop
immediately yielding nothing further; and a page whose comment loop halted
ends the retrieval after that single page fetch, with the result
independent of whatever later pages would have held. -/
theorem c5_time_window (off startT : Int) (endT : Option Int) (gs ts : List String) :
    (∀ (pages : List TwPage) (d : Info),
        d ∈ (processPages off startT endT gs ts pages).1 →
        startT ≤ timeOf d ∧ ∀ e, endT = Option.some e → timeOf d ≤ e)
    ∧ (∀ (o : List (String × Val)) (cs : List Val) (data : Info),
        parseItem o off = Except.ok data → timeOf data < startT →
        processComments off startT endT gs ts (Val.vobj o :: cs)
          = processComments off startT endT gs ts cs)
    ∧ (∀ (o : List (String × Val)) (cs : List Val) (data : Info) (e : Int),
        endT = Option.some e → parseItem o off = Except.ok data →
        ¬ timeOf data < startT → timeOf data > e →
        processComments off startT endT gs ts (Val.vobj o :: cs) = LoopRes.halt [])
    ∧ (∀ (p : TwPage) (rest rest' : List TwPage) (ys : List Info),
        pyTruthy p.errorVal = false →
        processComments off startT endT gs ts p.comments = LoopRes.halt ys →
        processPages off startT endT gs ts (p :: rest) = (ys, 1, Option.none)
          ∧ processPages off startT endT gs ts (p :: rest)
              = processPages off startT endT gs ts (p :: rest')) := by
  refine ⟨processPages_window_mem off startT endT gs ts, ?_, ?_, ?_⟩
  · intro o cs data hp hlt
    simp [processComments, hp, hlt]
  · intro o cs data e hend hp hlt hgt
    subst hend
    simp [processComments, hp, hlt, hgt]
  · intro p rest rest' ys herr hc
    constructor <;> simp [processPages, herr, hc]

/-- A concrete backend comment record at the given stream time. -/
def c5CommentObj (t : Int) : List (String × Val) :=
  [ ("commenter", Val.vobj [("name", Val.vstr "u")])
  , ("content_offset_seconds", Val.vint t)
  , ("message", Val.vobj [("body", Val.vstr "hi"), ("user_notice_params", Val.vobj [])]) ]

/-- The ok-value of a parse outcome (empty on error). -/
def okInfo (e : Except PyErr Info) : Info :=
  match e with
  | Except.ok i => i
  | Except.error _ => []

/-- First witness page for C5: records at times 5 (in window) and 20
(beyond the end time), with a next cursor present. -/
def c5Page0 : TwPage :=
  ⟨[Val.vobj (c5CommentObj 5), Val.vobj (c5CommentObj 20)], Option.some "c", Val.vnone, Val.vnone⟩

/-- Second witness page for C5, never fetched. -/
def c5Page1 : TwPage := ⟨[Val.vobj (c5CommentObj 99)], Option.none, Val.vnone, Val.vnone⟩

/-- The parsed form of the in-window witness record. -/
def c5Parsed : Info := okInfo (parseItem (c5CommentObj 5) 0)

theorem c5_witness :
    ((2 : Int) ≤ timeOf c5Parsed ∧ ∀ e, (Option.some (10 : Int)) = Option.some e → timeOf c5Parsed ≤ e)
    ∧ processComments 0 2 (Option.some 10) [] [] [Val.vobj (c5CommentObj 1)]
        = processComments 0 2 (Option.some 10) [] [] []
    ∧ processComments 0 2 (Option.some 10) [] [] [Val.vobj (c5CommentObj 20)]
        = LoopRes.halt []
    ∧ (processPages 0 2 (Option.some 10) [] [] [c5Page0, c5Page1]
          = ([c5Parsed], 1, Option.none)
        ∧ processPages 0 2 (Option.some 10) [] [] [c5Page0, c5Page1]
          = processPages 0 2 (Option.some 10) [] [] [c5Page0]) :=
  ⟨(c5_time_window 0 2 (Option.some 10) [] []).1 [c5Page0, c5Page1] c5Parsed (List.Mem.head _),
   (c5_time_window 0 2 (Option.some 10) [] []).2.1 (c5CommentObj 1) []
     (okInfo (parseItem (c5CommentObj 1) 0)) rfl (by decide),
   (c5_time_window 0 2 (Option.some 10) [] []).2.2.1 (c5CommentObj 20) []
     (okInfo (parseItem (c5CommentObj 20) 0)) 10 rfl rfl (by decide) (by decide),
   (c5_time_window 0 2 (Option.some 10) [] []).2.2.2 c5Page0 [c5Page1] [] [c5Parsed] rfl rfl⟩

/-! ### The clip entry point (`twitch.py` lines 968-1003) -/

/-- The handle returned by a chat retrieval call (`common.Chat`, exposed
interface of spec section 6): the lazily produced message sequence with
its page/failure accounting, plus title, duration and liveness. -/
structure ChatHandle where
  messages : List Info × Nat × Option SiteFail
  title : String
  duration : Val
  is_live : Bool

/-- `get_chat_by_clip_id` (`twitch.py` lines 968-1003) after the clip
metadata query resolved to `clip`: when the resolved metadata lacks the
parent video identifier (`multi_get(clip, 'video', 'id')` is `None`,
the original VOD was deleted), the call raises `NoChatReplay` before any
comment pagination exists; otherwise the clip's offset-into-video and
duration parameterize the paginated retrieval (start defaults to 0,
the end defaults to the clip duration, as `ensure_seconds` does; a
non-integer offset is modelled as 0, which the claim under study never
exercises). -/
def getChatByClipId (clipId : String) (clip : Val) (startParam endParam : Option Int)
    (gs ts : List String) (pages : List TwPage) : Except SiteFail ChatHandle :=
  match multiGet clip ["video", "id"] with
  | Option.none => Except.error SiteFail.noChatReplay
  | Option.some _vid =>
    let offV := match clip with
      | Val.vobj o => dgetN o "videoOffsetSeconds"
      | _ => Val.vnone
    let durV := match clip with
      | Val.vobj o => dgetN o "durationSeconds"
      | _ => Val.vnone
    let off : Int := match offV with
      | Val.vint n => n
      | _ => 0
    let startT : Int := startParam.getD 0
    let endT : Option Int := match endParam with
      | Option.some e => Option.some e
      | Option.none =>
        match durV with
        | Val.vint n => Option.some n
        | _ => Option.none
    Except.ok
      { messages := processPages off startT endT gs ts pages
      , title := pyStr (match clip with
          | Val.vobj o => dgetN o "title"
          | _ => Val.vnone) ++ " (" ++ clipId ++ ")"
      , duration := durV
      , is_live := false }

/-- C9, confirmed.  A clip whose resolved metadata lacks the parent video
identifier fails with `NoChatReplay`, and the outcome is the same whatever
comment pages the backend would have served: no pagination is reached. -/
theorem c9_deleted_clip_noreplay (clipId : String) (clip : Val)
    (sp ep : Option Int) (gs ts : List String) (pages pages' : List TwPage)
    (h : multiGet clip ["video", "id"] = Option.none) :
    getChatByClipId clipId clip sp ep gs ts pages = Except.error SiteFail.noChatReplay
    ∧ getChatByClipId clipId clip sp ep gs ts pages
        = getChatByClipId clipId clip sp ep gs ts pages' := by
  unfold getChatByClipId
  rw [h]
  exact ⟨rfl, rfl⟩

/-- Witness clip metadata: the video object survives but its `id` is gone
(deleted parent VOD). -/
def c9Clip : Val :=
  Val.vobj
    [ ("video", Val.vobj [("createdAt", Val.vstr "2020-01-01T00:00:00Z")])
    , ("durationSeconds", Val.vint 30)
    , ("title", Val.vstr "clip title") ]

theorem c9_witness :
    getChatByClipId "slug" c9Clip Option.none Option.none [] [] []
      = Except.error SiteFail.noChatReplay :=
  (c9_deleted_clip_noreplay "slug" c9Clip Option.none Option.none [] [] [] []
    (by rfl)).1

/-! ### The URL shapes and top-level dispatch (`twitch.py` lines 135-165,
825-829, 1422-1429) -/

/-- `https?://`. -/
def httpsRe : RE :=
  RE.seqList [RE.litStr "http", RE.opt false (RE.lit 's'), RE.litStr "://"]

/-- `(?:(?:www|go|m)\.)?`. -/
def wwwGoM : RE :=
  RE.opt false (RE.seq (RE.alt (RE.litStr "www") (RE.alt (RE.litStr "go") (RE.litStr "m")))
    (RE.lit '.'))

/-- `_VALID_VOD_URL` (`twitch.py` lines 138-145). -/
def validVodUrl : RE :=
  RE.seqList
    [ httpsRe
    , RE.alt
        (RE.seqList
          [ wwwGoM
          , RE.litStr "twitch.tv/"
          , RE.alt
              (RE.seqList
                [ RE.plusG (RE.cls (fun c => c ≠ '/'))
                , RE.lit '/'
                , RE.lit 'v'
                , RE.opt false (RE.litStr "ideo") ])
              (RE.litStr "videos")
          , RE.lit '/' ])
        (RE.seqList
          [ RE.litStr "player.twitch.tv/?"
          , RE.star true RE.dot
          , RE.bound
          , RE.litStr "video="
          , RE.opt false (RE.lit 'v') ])
    , RE.grp 1 (RE.plusG (RE.cls isPyDigit)) ]

/-- `_VALID_CLIPS_URL` (`twitch.py` lines 148-155). -/
def validClipsUrl : RE :=
  RE.seqList
    [ httpsRe
    , RE.alt
        (RE.seq (RE.litStr "clips.twitch.tv/")
          (RE.alt
            (RE.seqList
              [ RE.litStr "embed?"
              , RE.star true RE.dot
              , RE.bound
              , RE.litStr "clip=" ])
            (RE.star false (RE.seq (RE.plusG (RE.cls (fun c => c ≠ '/'))) (RE.lit '/')))))
        (RE.seqList
          [ wwwGoM
          , RE.litStr "twitch.tv/"
          , RE.plusG (RE.cls (fun c => c ≠ '/'))
          , RE.litStr "/clip/" ])
    , RE.grp 1 (RE.plusG (RE.cls (fun c => c ≠ '/' ∧ c ≠ '?' ∧ c ≠ '#' ∧ c ≠ '&'))) ]

/-- `_VALID_STREAM_URL` (`twitch.py` lines 158-165). -/
def validStreamUrl : RE :=
  RE.seqList
    [ httpsRe
    , RE.alt
        (RE.seq wwwGoM (RE.litStr "twitch.tv/"))
        (RE.seqList
          [ RE.litStr "player.twitch.tv/?"
          , RE.star true RE.dot
          , RE.bound
          , RE.litStr "channel=" ])
    , RE.grp 1 (RE.plusG (RE.cls (fun c => c ≠ '/' ∧ c ≠ '#' ∧ c ≠ '?'))) ]

/-- The three retrieval handlers of `_REGEX_FUNCTION_MAP` (`twitch.py`
lines 825-829). -/
inductive UrlHandler where
  | vodChat : UrlHandler
  | clipChat : UrlHandler
  | streamChat : UrlHandler
deriving Repr, DecidableEq

/-- `get_chat` (`twitch.py` lines 1422-1429): try the three URL shapes in
order and dispatch the captured identifier to the matching handler; fall
through to the absent value when none matches. -/
def getChat (url : List Char) : Option (UrlHandler × List Char) :=
  match reSearch validVodUrl url with
  | Option.some m => Option.some (UrlHandler.vodChat, m.g1)
  | Option.none =>
    match reSearch validClipsUrl url with
    | Option.some m => Option.some (UrlHandler.clipChat, m.g1)
    | Option.none =>
      match reSearch validStreamUrl url with
      | Option.some m => Option.some (UrlHandler.streamChat, m.g1)
      | Option.none => Option.none

/-- C10, confirmed.  A URL that matches none of the three recognized
shapes makes `get_chat` fall through its dispatch table and return the
absent value, raising nothing. -/
theorem c10_unmatched_url_none (url : List Char)
    (h1 : reSearch validVodUrl url = Option.none)
    (h2 : reSearch validClipsUrl url = Option.none)
    (h3 : reSearch validStreamUrl url = Option.none) :
    getChat url = Option.none := by
  unfold getChat
  rw [h1, h2, h3]

/-- Witness URL for C10 (no recognized shape). -/
def c10Url : List Char := "https://example.com/watch?v=abc".data

theorem c10_witness : getChat c10Url = Option.none :=
  c10_unmatched_url_none c10Url (by decide) (by decide) (by decide)
